import Mathlib

/-!
# Krishi Mitra: conversation and transcription orchestration

A shallow embedding of `App.js`: the `sendMessage`, `startRecording`,
`stopRecording`, `toggleRecording` closures of the `App` component and the
module-level `transcribeAudio`.

* JavaScript values that flow through the code are `JSValue`s.
* An `async` function is a `Run`: the effects it performs, in program order,
  and the state its promise ends in.
* React state is read from the render snapshot (`AppState`) the closure was
  created in and written through `set...` effects, replayed by `AppState.apply`.
* The outside world (the query backend, the transcription service, the audio
  device) is an explicit argument giving the result of every request.
-/

namespace KrishiApp

/-! ## JavaScript values -/

/-- JavaScript values as far as the code can tell them apart. A string is a
sequence of Unicode scalar values. -/
inductive JSValue where
  | undefined
  | null
  | boolean (b : Bool)
  | number (n : Int)
  | string (s : String)
  | object (fields : List (String × JSValue))

/-- Exceptions and promise rejections. -/
inductive JSError where
  /-- Thrown by the engine: property read on `null`/`undefined`, call of a non-function. -/
  | typeError
  /-- The value of `new Error(message)`. -/
  | error (message : String)
  /-- A rejection coming from a library call (network failure, non-2xx, unreadable body, device). -/
  | failure (reason : String)
  deriving DecidableEq

/-- The read `v[key]` for a key that no built-in prototype defines (`text`,
`upload_url`, `id`, `status`): throws on `null` and `undefined`, finds the own
property of an object, and is `undefined` on every other value. -/
def JSValue.getProp (v : JSValue) (key : String) : Except JSError JSValue :=
  match v with
  | .undefined => .error .typeError
  | .null => .error .typeError
  | .object fields => .ok ((fields.lookup key).getD .undefined)
  | _ => .ok .undefined

/-- The comparison `v === lit` against a string literal. -/
def JSValue.strictEqString (v : JSValue) (lit : String) : Bool :=
  match v with
  | .string s => s == lit
  | _ => false

/-- The code points `String.prototype.trim` strips: ECMAScript WhiteSpace and
LineTerminator. -/
def isTrimChar (c : Char) : Bool :=
  let n := c.toNat
  n == 0x09 || n == 0x0A || n == 0x0B || n == 0x0C || n == 0x0D || n == 0x20 ||
  n == 0xA0 || n == 0x1680 || (0x2000 ≤ n && n ≤ 0x200A) || n == 0x2028 ||
  n == 0x2029 || n == 0x202F || n == 0x205F || n == 0x3000 || n == 0xFEFF

/-- The method `String.prototype.trim`. -/
def jsTrim (s : String) : String :=
  ⟨((s.data.dropWhile isTrimChar).reverse.dropWhile isTrimChar).reverse⟩

/-- The call `v.trim()`: only strings have the method. -/
def JSValue.trim (v : JSValue) : Except JSError String :=
  match v with
  | .string s => .ok (jsTrim s)
  | _ => .error .typeError

/-! ## Data model -/

inductive Sender where
  | user
  | bot
  deriving DecidableEq

/-- An entry of the conversation log, `{ sender, text }`. -/
structure Message where
  sender : Sender
  text : JSValue

/-- A recording object handed out by `Audio.Recording.createAsync`. -/
structure Recording where
  id : Nat
  deriving DecidableEq

/-- The `useState` cells of `App` (lines 22-28). `recording` is `none` for the
falsy values `null` and `undefined`. -/
structure AppState where
  messages : List Message
  input : JSValue
  voiceEnabled : Bool
  useGoogleTTS : Bool
  loading : Bool
  darkTheme : Bool
  recording : Option Recording

/-- The state of the first render. -/
def AppState.initial : AppState where
  messages := []
  input := .string ""
  voiceEnabled := true
  useGoogleTTS := false
  loading := false
  darkTheme := false
  recording := none

/-! ## Effects -/

/-- Everything the code does to the outside, React state included. -/
inductive Event where
  /-- The update `setMessages(prev => [...prev, m])`. -/
  | setMessages (m : Message)
  | setInput (value : JSValue)
  | setLoading (value : Bool)
  | setRecording (value : Option Recording)
  /-- The request `axios.post(url, { query })`. -/
  | axiosPost (url : String) (query : JSValue)
  /-- The call `Speech.speak(text, { language, rate })`. -/
  | speechSpeak (text : JSValue) (language : String) (rate : Nat)
  | consoleLog (text : String) (args : List JSValue)
  | consoleError (text : String) (err : JSError)
  | requestPermissions
  | setAudioMode
  | createRecording
  | stopAndUnload (r : Recording)
  /-- The `fetch` of the upload endpoint with the audio of `uri` as body. -/
  | fetchUpload (uri : JSValue)
  /-- The `fetch` of the transcript endpoint with body `{ audio_url }`. -/
  | fetchTranscript (audioUrl : JSValue)
  /-- The `fetch` of the status of job `transcriptId`. -/
  | fetchPolling (transcriptId : JSValue)
  /-- The wait `await new Promise(resolve => setTimeout(resolve, ms))`. -/
  | delay (ms : Nat)
  /-- The call `sendMessage(arg)` made by `stopRecording`. -/
  | callSendMessage (arg : JSValue)

/-- One state update as React applies it. -/
def AppState.apply (s : AppState) : Event → AppState
  | .setMessages m => { s with messages := s.messages ++ [m] }
  | .setInput v => { s with input := v }
  | .setLoading b => { s with loading := b }
  | .setRecording r => { s with recording := r }
  | _ => s

/-- The state after the updates among `evs`, applied in order. -/
def AppState.applyAll (s : AppState) (evs : List Event) : AppState :=
  evs.foldl AppState.apply s

/-- The state of a promise; `pending` is a promise that has not settled. -/
inductive Settled (α : Type) where
  | fulfilled (value : α)
  | rejected (reason : JSError)
  | pending

/-- An execution: the effects performed, in order, and how it ended. -/
structure Run (α : Type) where
  events : List Event
  outcome : Settled α

/-- Normal completion with a value. -/
def Run.pure {α : Type} (a : α) : Run α :=
  ⟨[], .fulfilled a⟩

/-- Sequencing: the rest runs only after normal completion. -/
def Run.bind {α β : Type} (x : Run α) (f : α → Run β) : Run β :=
  match x.outcome with
  | .fulfilled a => ⟨x.events ++ (f a).events, (f a).outcome⟩
  | .rejected e => ⟨x.events, .rejected e⟩
  | .pending => ⟨x.events, .pending⟩

instance : Monad Run where
  pure := Run.pure
  bind := Run.bind

/-- A single effect. -/
def emit (e : Event) : Run Unit :=
  ⟨[e], .fulfilled ()⟩

/-- The statement `throw e`. -/
def raise {α : Type} (e : JSError) : Run α :=
  ⟨[], .rejected e⟩

/-- The value or exception of an `await` or of a throwing operation. -/
def settle {α : Type} (r : Except JSError α) : Run α :=
  match r with
  | .ok a => ⟨[], .fulfilled a⟩
  | .error e => ⟨[], .rejected e⟩

/-- The statement `try { body } catch (err) { handler }`. -/
def tryCatch {α : Type} (body : Run α) (handler : JSError → Run α) : Run α :=
  match body.outcome with
  | .rejected e => ⟨body.events ++ (handler e).events, (handler e).outcome⟩
  | _ => body

/-- A call of an `async` function whose promise is dropped: its effects happen,
its rejection reaches nobody. -/
def detach {α : Type} (r : Run α) : Run Unit :=
  ⟨r.events, .fulfilled ()⟩

/-- Modelled from the spec: the speech engine (`expo-speech`, a library outside
the sources) "has no return value and its side effect (audible output) is
fire-and-forget", so `Speech.speak(text, { language, rate })` is an effect that
completes normally. -/
def Speech.speak (text : JSValue) (language : String) (rate : Nat) : Run Unit :=
  emit (.speechSpeak text language rate)

/-! ## Conversation orchestrator -/

def queryUrl : String := "https://krishi-mitra-nvxu.onrender.com/query"

def fallbackText : String := "Something went wrong. Please try again."

/-- The function `sendMessage` (lines 31-62), called with argument `arg` from the
render snapshot `s`; `backend` is what `axios.post` settles with: a rejection,
or a response whose `data` is the given value. -/
def sendMessage (s : AppState) (backend : Except JSError JSValue) (arg : JSValue) : Run Unit := do
  let textToSend := match arg with
    | .undefined => s.input
    | v => v
  let trimmed ← settle textToSend.trim
  if trimmed = "" then
    pure ()
  else do
    let userMessage : Message := { sender := .user, text := textToSend }
    emit (.setMessages userMessage)
    emit (.setLoading true)
    tryCatch
      (do
        emit (.axiosPost queryUrl textToSend)
        let data ← settle backend
        let botReply ← settle (data.getProp "text")
        let botMessage : Message := { sender := .bot, text := botReply }
        emit (.setMessages botMessage)
        if s.voiceEnabled then
          if s.useGoogleTTS then
            emit (.consoleLog "Using Google TTS (To be implemented)" [])
          else
            Speech.speak botReply "en" 1
        else
          pure ())
      (fun error => do
        emit (.consoleError "Error:" error)
        let errorMessage : Message := { sender := .bot, text := .string fallbackText }
        emit (.setMessages errorMessage))
    emit (.setInput (.string ""))
    emit (.setLoading false)

/-! ## Transcription client -/

/-- What the transcription service answers. Each field is the outcome of one
`fetch` followed by `.json()`: a rejection of either, or the parsed body.
`polling n` answers the status request number `n` (from 0). -/
structure AssemblyAI where
  upload : Except JSError JSValue
  transcript : Except JSError JSValue
  polling : Nat → Except JSError JSValue

/-- The loop `while (true)` of `transcribeAudio` (lines 233-246), about to send
status request number `n`. The loop has no bound in the source; `fuel` bounds the
iterations unfolded, and a run that needs more is `pending`. -/
def pollingLoop (service : AssemblyAI) (transcriptId : JSValue) : Nat → Nat → Run JSValue
  | 0, _ => ⟨[], .pending⟩
  | fuel + 1, n => do
    emit (.fetchPolling transcriptId)
    let pollingData ← settle (service.polling n)
    let status ← settle (pollingData.getProp "status")
    if status.strictEqString "completed" then
      settle (pollingData.getProp "text")
    else if status.strictEqString "error" then
      raise (.error "Transcription failed")
    else do
      emit (.delay 2000)
      pollingLoop service transcriptId fuel (n + 1)

/-- The function `transcribeAudio` (lines 196-251). The `FormData` built on lines
206-207 is never used and has no effect. -/
def transcribeAudio (service : AssemblyAI) (fuel : Nat) (uri : JSValue) : Run JSValue :=
  tryCatch
    (do
      emit (.fetchUpload uri)
      let uploadData ← settle service.upload
      let audioUrl ← settle (uploadData.getProp "upload_url")
      emit (.fetchTranscript audioUrl)
      let transcriptData ← settle service.transcript
      let transcriptId ← settle (transcriptData.getProp "id")
      pollingLoop service transcriptId fuel 0)
    (fun err => do
      emit (.consoleError "AssemblyAI Transcription Error:" err)
      raise err)

/-! ## Recording controller -/

/-- What the audio library answers: the outcome of each awaited call and the
value of `recording.getURI()`. -/
structure AudioDevice where
  requestPermissions : Except JSError Unit
  setAudioMode : Except JSError Unit
  createAsync : Except JSError Recording
  stopAndUnload : Except JSError Unit
  uri : JSValue

/-- The function `startRecording` (lines 64-79). -/
def startRecording (device : AudioDevice) : Run Unit :=
  tryCatch
    (do
      emit .requestPermissions
      settle device.requestPermissions
      emit .setAudioMode
      settle device.setAudioMode
      emit .createRecording
      let recording ← settle device.createAsync
      emit (.setRecording (some recording)))
    (fun err => emit (.consoleError "Failed to start recording" err))

/-- The function `stopRecording` (lines 81-95), called from the render snapshot `s`.
The call `sendMessage(transcribedText)` is the last statement and is not awaited. -/
def stopRecording (s : AppState) (device : AudioDevice) (service : AssemblyAI)
    (backend : Except JSError JSValue) (fuel : Nat) : Run Unit :=
  tryCatch
    (do
      emit (.setRecording none)
      let recording ← settle (match s.recording with
        | some r => .ok r
        | none => .error .typeError)
      emit (.stopAndUnload recording)
      settle device.stopAndUnload
      let uri := device.uri
      emit (.consoleLog "Recorded file available at:" [uri])
      let transcribedText ← transcribeAudio service fuel uri
      emit (.setInput transcribedText)
      emit (.callSendMessage transcribedText)
      detach (sendMessage s backend transcribedText))
    (fun error => do
      emit (.consoleError "Transcription error:" error)
      emit (.setInput (.string "Could not transcribe the audio.")))

/-! ### The controller under interleaving

`startRecording` and `stopRecording` are suspended at their awaits while the
button stays live, so `toggleRecording` can run again before they resume. The
machine below keeps what decides the number of recording sessions: the `recording`
cell, the suspended calls, and the sessions created and not stopped. Every state
update is taken to be rendered before the next action. When and whether a call of
the audio library settles is the choice of the environment (the actions
`createResolved`, `startRejected`, `stopResolved`, `stopRejected`); `App.js` itself
refuses no call. -/

/-- The recording controller between two actions. -/
structure Controller where
  /-- The cell `recording` as the current render sees it. -/
  recording : Option Recording
  /-- Calls of `startRecording` suspended before `createAsync` has resolved (lines 66-72). -/
  starting : Nat
  /-- Calls of `stopRecording` suspended at `stopAndUnloadAsync` (line 84), by session. -/
  stopping : List Recording
  /-- Sessions `createAsync` has produced and `stopAndUnloadAsync` has not yet stopped. -/
  sessions : List Recording
  /-- Number of sessions produced so far; the next session gets this id. -/
  created : Nat

def Controller.initial : Controller where
  recording := none
  starting := 0
  stopping := []
  sessions := []
  created := 0

inductive Action where
  /-- A press of the microphone button (line 173). -/
  | toggleRecording
  /-- The `createAsync` of a suspended `startRecording` resolves (lines 72-75). -/
  | createResolved
  /-- An awaited call of a suspended `startRecording` rejects (lines 76-77). -/
  | startRejected
  /-- The `stopAndUnloadAsync` of session `r` resolves (line 84). -/
  | stopResolved (r : Recording)
  /-- The `stopAndUnloadAsync` of session `r` rejects (lines 91-93). -/
  | stopRejected (r : Recording)

/-- One action. `toggleRecording` (lines 97-103) runs `stopRecording` up to its first
await (line 83: the cell is cleared) when the cell holds a session, and otherwise
starts `startRecording`, which touches no state before its awaits. A completion
that no suspended call is waiting for changes nothing. -/
def Controller.step (c : Controller) : Action → Controller
  | .toggleRecording =>
    match c.recording with
    | some r => { c with recording := none, stopping := r :: c.stopping }
    | none => { c with starting := c.starting + 1 }
  | .createResolved =>
    if c.starting = 0 then c
    else
      { c with
        starting := c.starting - 1
        recording := some ⟨c.created⟩
        sessions := ⟨c.created⟩ :: c.sessions
        created := c.created + 1 }
  | .startRejected =>
    if c.starting = 0 then c else { c with starting := c.starting - 1 }
  | .stopResolved r =>
    if r ∈ c.stopping then
      { c with stopping := c.stopping.erase r, sessions := c.sessions.erase r }
    else c
  | .stopRejected r =>
    if r ∈ c.stopping then { c with stopping := c.stopping.erase r } else c

/-- The state reached from `c` by a sequence of actions. -/
def Controller.run (c : Controller) (actions : List Action) : Controller :=
  actions.foldl Controller.step c

/-! ## Reading a trace -/

/-- The messages appended to the log, in order. -/
def appended : List Event → List Message
  | [] => []
  | .setMessages m :: rest => m :: appended rest
  | _ :: rest => appended rest

def Event.isAxiosPost : Event → Bool
  | .axiosPost _ _ => true
  | _ => false

def Event.isSpeak : Event → Bool
  | .speechSpeak _ _ _ => true
  | _ => false

def Event.isCallSendMessage : Event → Bool
  | .callSendMessage _ => true
  | _ => false

def Event.isFetchTranscript : Event → Bool
  | .fetchTranscript _ => true
  | _ => false

def Event.isFetchPolling : Event → Bool
  | .fetchPolling _ => true
  | _ => false

def Event.isDelay : Event → Bool
  | .delay _ => true
  | _ => false

/-- The trace of `k + 1` status requests for job `transcriptId` with a 2000 ms
wait after each of the first `k`. -/
def pollingTrace (transcriptId : JSValue) : Nat → List Event
  | 0 => [.fetchPolling transcriptId]
  | k + 1 => .fetchPolling transcriptId :: .delay 2000 :: pollingTrace transcriptId k

/-! ## Auxiliary definitions for the statements -/

/-- What the `try` block of `sendMessage` reads as `botReply`: `res.data.text`, or
the exception that reaches the `catch`. -/
def replyOf (backend : Except JSError JSValue) : Except JSError JSValue :=
  match backend with
  | .ok data => data.getProp "text"
  | .error e => .error e

/-- The effects of lines 40-57 of `sendMessage`, after the request has settled. -/
def replyTrace (s : AppState) (backend : Except JSError JSValue) : List Event :=
  match replyOf backend with
  | .ok v =>
    .setMessages ⟨.bot, v⟩ ::
      (if s.voiceEnabled then
        if s.useGoogleTTS then [.consoleLog "Using Google TTS (To be implemented)" []]
        else [.speechSpeak v "en" 1]
      else [])
  | .error e => [.consoleError "Error:" e, .setMessages ⟨.bot, .string fallbackText⟩]

/-- The first render with voice output switched off (line 124). -/
def AppState.muted : AppState :=
  { AppState.initial with voiceEnabled := false }

/-- A render in which session 0 is being recorded. -/
def AppState.recordingNow : AppState :=
  { AppState.initial with recording := some ⟨0⟩ }

/-- A service that accepts the upload and the job and answers the status request
`processing`, `processing`, then `completed` with the text `hello`. -/
def helloService : AssemblyAI where
  upload := .ok (.object [("upload_url", .string "https://cdn.example/a.m4a")])
  transcript := .ok (.object [("id", .string "job-1")])
  polling := fun n =>
    if n < 2 then .ok (.object [("status", .string "processing")])
    else .ok (.object [("status", .string "completed"), ("text", .string "hello")])

/-- A service that accepts the upload and the job and answers the first status
request with `error`. -/
def failingService : AssemblyAI where
  upload := .ok (.object [("upload_url", .string "https://cdn.example/a.m4a")])
  transcript := .ok (.object [("id", .string "job-1")])
  polling := fun _ => .ok (.object [("status", .string "error"), ("error", .string "no speech")])

/-- A device on which every call succeeds. -/
def workingDevice : AudioDevice where
  requestPermissions := .ok ()
  setAudioMode := .ok ()
  createAsync := .ok ⟨0⟩
  stopAndUnload := .ok ()
  uri := .string "file:///rec.m4a"

/-- A service whose upload endpoint refuses the request with an error body (no
`upload_url`), whose job endpoint then refuses the job (no `id`), and whose status
endpoint knows no such job (no `status`). -/
def refusingService : AssemblyAI where
  upload := .ok (.object [("error", .string "Authentication error, API token missing/invalid")])
  transcript := .ok (.object [("error", .string "audio_url is required")])
  polling := fun _ => .ok (.object [("error", .string "Not found")])

/-- A service whose upload endpoint refuses the request with an error body (no
`upload_url`) but which answers the job and the status request. -/
def lenientService : AssemblyAI where
  upload := .ok (.object [("error", .string "Authentication error, API token missing/invalid")])
  transcript := .ok (.object [("id", .string "job-1")])
  polling := fun _ => .ok (.object [("status", .string "completed"), ("text", .string "hi")])

/-! ## Properties of `sendMessage` -/

/-- The call `sendMessage()` of the Send button (line 186) is `sendMessage(input)`. -/
theorem sendMessage_default_argument (s : AppState) (backend : Except JSError JSValue)
    (t : String) (hinput : s.input = .string t) :
    sendMessage s backend .undefined = sendMessage s backend (.string t) := by
  simp [sendMessage, hinput]

/-- C1: for an input whose trim is empty, `sendMessage` performs no effect at all
(so no log update, no backend request, no speech call), completes normally, and
the log, the busy flag and the input buffer are what they were. -/
theorem sendMessage_blank_is_noop (s : AppState) (backend : Except JSError JSValue)
    (t : String) (hblank : jsTrim t = "") :
    (sendMessage s backend (.string t)).events = [] ∧
    (s.applyAll (sendMessage s backend (.string t)).events).messages = s.messages ∧
    (s.applyAll (sendMessage s backend (.string t)).events).loading = s.loading ∧
    (s.applyAll (sendMessage s backend (.string t)).events).input = s.input := by
  have h : (sendMessage s backend (.string t)).events = [] := by
    simp [sendMessage, JSValue.trim, settle, hblank, bind, Run.bind, pure, Run.pure]
  simp [h, AppState.applyAll]

theorem sendMessage_blank_is_noop_witness :
    (sendMessage AppState.initial (.ok (.object [("text", .string "x")])) (.string " \t\n")).events = [] ∧
    (sendMessage AppState.initial (.error (.failure "offline")) (.string "")).events = [] :=
  ⟨(sendMessage_blank_is_noop AppState.initial (.ok (.object [("text", .string "x")]))
      " \t\n" (by decide)).1,
   (sendMessage_blank_is_noop AppState.initial (.error (.failure "offline")) "" (by decide)).1⟩

theorem sendMessage_trace (s : AppState) (backend : Except JSError JSValue) (t : String)
    (hne : jsTrim t ≠ "") :
    sendMessage s backend (.string t) =
      ⟨.setMessages ⟨.user, .string t⟩ :: .setLoading true :: .axiosPost queryUrl (.string t) ::
        (replyTrace s backend ++ [.setInput (.string ""), .setLoading false]), .fulfilled ()⟩ := by
  rcases backend with e | data
  · simp [sendMessage, JSValue.trim, settle, hne, bind, Run.bind, pure, Run.pure, tryCatch, emit,
      replyTrace, replyOf]
  · cases data <;> cases hv : s.voiceEnabled <;> cases hg : s.useGoogleTTS <;>
      simp [sendMessage, JSValue.trim, settle, hne, bind, Run.bind, pure, Run.pure, tryCatch, emit,
        replyTrace, replyOf, JSValue.getProp, Speech.speak, hv, hg]

theorem appended_append (xs ys : List Event) : appended (xs ++ ys) = appended xs ++ appended ys := by
  induction xs with
  | nil => rfl
  | cons e xs ih => cases e <;> simp [appended, ih]

theorem messages_applyAll (evs : List Event) (s : AppState) :
    (s.applyAll evs).messages = s.messages ++ appended evs := by
  induction evs generalizing s with
  | nil => simp [AppState.applyAll, appended]
  | cons e evs ih =>
    have h := ih (s.apply e)
    simp only [AppState.applyAll, List.foldl_cons] at h ⊢
    rw [h]
    cases e <;> simp [AppState.apply, appended]

/-- C2: for an input `t` that is non-empty after trimming and every backend outcome,
the effects of `sendMessage(t)` start with the append of the user message with
text `t`, then the busy flag, then the backend request; what follows contains no
further request and appends exactly one message, a bot message; the log after the
call is the prior log, the user message, the bot message. -/
theorem sendMessage_user_then_bot (s : AppState) (backend : Except JSError JSValue) (t : String)
    (hne : jsTrim t ≠ "") :
    ∃ (reply : JSValue) (rest : List Event),
      (sendMessage s backend (.string t)).events =
        .setMessages ⟨.user, .string t⟩ :: .setLoading true ::
          .axiosPost queryUrl (.string t) :: rest ∧
      appended rest = [⟨.bot, reply⟩] ∧
      (∀ e ∈ rest, e.isAxiosPost = false) ∧
      (s.applyAll (sendMessage s backend (.string t)).events).messages =
        s.messages ++ [⟨.user, .string t⟩, ⟨.bot, reply⟩] := by
  rw [messages_applyAll, sendMessage_trace s backend t hne]
  cases hr : replyOf backend with
  | error e =>
    refine ⟨.string fallbackText, _, rfl, ?_, ?_, ?_⟩ <;>
      simp [replyTrace, hr, appended, Event.isAxiosPost]
  | ok v =>
    refine ⟨v, _, rfl, ?_, ?_, ?_⟩ <;>
      cases hv : s.voiceEnabled <;> cases hg : s.useGoogleTTS <;>
      simp [replyTrace, hr, appended, Event.isAxiosPost, hv, hg]

theorem sendMessage_user_then_bot_witness :
    ∃ (reply : JSValue) (rest : List Event),
      (sendMessage AppState.initial (.error (.failure "offline")) (.string " hi ")).events =
        .setMessages ⟨.user, .string " hi "⟩ :: .setLoading true ::
          .axiosPost queryUrl (.string " hi ") :: rest ∧
      appended rest = [⟨.bot, reply⟩] ∧
      (∀ e ∈ rest, e.isAxiosPost = false) ∧
      (AppState.initial.applyAll
          (sendMessage AppState.initial (.error (.failure "offline")) (.string " hi ")).events).messages =
        AppState.initial.messages ++ [⟨.user, .string " hi "⟩, ⟨.bot, reply⟩] :=
  sendMessage_user_then_bot AppState.initial (.error (.failure "offline")) " hi " (by decide)

/-- C3: for a non-blank input, when the backend resolves with a body whose `text`
is the string `X`, the effects of `sendMessage` are the user append, the busy flag,
the request, the append of the bot message with text `X` unchanged, the speech
step, and the two resets: the only messages appended are the user message and
the bot message with text `X`, and the `catch` branch with the fallback is not run. -/
theorem sendMessage_reply_verbatim (s : AppState) (fields : List (String × JSValue))
    (t X : String) (hne : jsTrim t ≠ "") (htext : fields.lookup "text" = some (.string X)) :
    (sendMessage s (.ok (.object fields)) (.string t)).events =
      [.setMessages ⟨.user, .string t⟩, .setLoading true, .axiosPost queryUrl (.string t),
        .setMessages ⟨.bot, .string X⟩] ++
      (if s.voiceEnabled then
        if s.useGoogleTTS then [.consoleLog "Using Google TTS (To be implemented)" []]
        else [.speechSpeak (.string X) "en" 1]
      else []) ++
      [.setInput (.string ""), .setLoading false] ∧
    appended (sendMessage s (.ok (.object fields)) (.string t)).events =
      [⟨.user, .string t⟩, ⟨.bot, .string X⟩] ∧
    (s.applyAll (sendMessage s (.ok (.object fields)) (.string t)).events).messages =
      s.messages ++ [⟨.user, .string t⟩, ⟨.bot, .string X⟩] := by
  rw [messages_applyAll, sendMessage_trace s _ t hne]
  refine ⟨?_, ?_, ?_⟩ <;>
    cases hv : s.voiceEnabled <;> cases hg : s.useGoogleTTS <;>
    simp [replyTrace, replyOf, JSValue.getProp, htext, appended, hv, hg]

theorem sendMessage_reply_verbatim_witness :
    appended (sendMessage AppState.initial (.ok (.object [("text", .string "Sow in June.")]))
      (.string "When to sow?")).events =
      [⟨.user, .string "When to sow?"⟩, ⟨.bot, .string "Sow in June."⟩] :=
  (sendMessage_reply_verbatim AppState.initial [("text", .string "Sow in June.")]
    "When to sow?" "Sow in June." (by decide) (by rfl)).2.1

/-- C4: for a non-blank input, when the backend request is rejected, `sendMessage`
logs the error and appends exactly one bot message, with the fallback text; its
promise is fulfilled (the error is not propagated), and afterwards the busy flag
is false and the input buffer is the empty string. -/
theorem sendMessage_backend_failure (s : AppState) (err : JSError) (t : String)
    (hne : jsTrim t ≠ "") :
    (sendMessage s (.error err) (.string t)) =
      ⟨[.setMessages ⟨.user, .string t⟩, .setLoading true, .axiosPost queryUrl (.string t),
        .consoleError "Error:" err,
        .setMessages ⟨.bot, .string "Something went wrong. Please try again."⟩,
        .setInput (.string ""), .setLoading false], .fulfilled ()⟩ ∧
    (s.applyAll (sendMessage s (.error err) (.string t)).events).messages =
      s.messages ++
        [⟨.user, .string t⟩, ⟨.bot, .string "Something went wrong. Please try again."⟩] ∧
    (s.applyAll (sendMessage s (.error err) (.string t)).events).loading = false ∧
    (s.applyAll (sendMessage s (.error err) (.string t)).events).input = .string "" := by
  rw [sendMessage_trace s _ t hne]
  simp [replyTrace, replyOf, AppState.applyAll, AppState.apply, fallbackText]

theorem sendMessage_backend_failure_witness :
    (AppState.initial.applyAll
      (sendMessage AppState.initial (.error (.failure "Network Error")) (.string "hello")).events).loading
      = false :=
  (sendMessage_backend_failure AppState.initial (.failure "Network Error") "hello"
    (by decide)).2.2.1

/-- C5, as the code behaves: a body of `null` or `undefined` makes the read of
`text` throw, and `sendMessage` then appends the fallback message and makes no
speech call; a body on which the read of `text` gives `undefined` (no such
field) is not a failure: the bot message carries the `undefined` reply, no
fallback is appended, and `Speech.speak` is called with `undefined` when voice is
on and the local engine is selected. -/
theorem sendMessage_malformed_body (s : AppState) (data : JSValue) (t : String)
    (hne : jsTrim t ≠ "") :
    ((data = .null ∨ data = .undefined) →
      (sendMessage s (.ok data) (.string t)).events =
        [.setMessages ⟨.user, .string t⟩, .setLoading true, .axiosPost queryUrl (.string t),
          .consoleError "Error:" .typeError,
          .setMessages ⟨.bot, .string "Something went wrong. Please try again."⟩,
          .setInput (.string ""), .setLoading false]) ∧
    (data.getProp "text" = .ok .undefined →
      (sendMessage s (.ok data) (.string t)).events =
        [.setMessages ⟨.user, .string t⟩, .setLoading true, .axiosPost queryUrl (.string t),
          .setMessages ⟨.bot, .undefined⟩] ++
        (if s.voiceEnabled then
          if s.useGoogleTTS then [.consoleLog "Using Google TTS (To be implemented)" []]
          else [.speechSpeak .undefined "en" 1]
        else []) ++
        [.setInput (.string ""), .setLoading false]) := by
  rw [sendMessage_trace s _ t hne]
  constructor
  · rintro (h | h) <;> subst h <;> simp [replyTrace, replyOf, JSValue.getProp, fallbackText]
  · intro h
    cases hv : s.voiceEnabled <;> cases hg : s.useGoogleTTS <;>
      simp [replyTrace, replyOf, h, hv, hg]

theorem sendMessage_malformed_body_witness :
    (sendMessage AppState.initial (.ok .null) (.string "hi")).events =
      [.setMessages ⟨.user, .string "hi"⟩, .setLoading true, .axiosPost queryUrl (.string "hi"),
        .consoleError "Error:" .typeError,
        .setMessages ⟨.bot, .string "Something went wrong. Please try again."⟩,
        .setInput (.string ""), .setLoading false] ∧
    (sendMessage AppState.initial (.ok (.string "<html>502</html>")) (.string "hi")).events =
      [.setMessages ⟨.user, .string "hi"⟩, .setLoading true, .axiosPost queryUrl (.string "hi"),
        .setMessages ⟨.bot, .undefined⟩] ++
      (if AppState.initial.voiceEnabled then
        if AppState.initial.useGoogleTTS then [.consoleLog "Using Google TTS (To be implemented)" []]
        else [.speechSpeak .undefined "en" 1]
      else []) ++
      [.setInput (.string ""), .setLoading false] :=
  ⟨(sendMessage_malformed_body AppState.initial .null "hi" (by decide)).1 (Or.inl rfl),
   (sendMessage_malformed_body AppState.initial (.string "<html>502</html>") "hi"
      (by decide)).2 rfl⟩

/-- C5 fails as stated: on the body `{ error: "bad request" }`, which carries no
`text` field, the bot message appended has the text `undefined`, not the
fallback, and `Speech.speak` is called with `undefined`. -/
theorem sendMessage_malformed_body_counterexample :
    (sendMessage AppState.initial (.ok (.object [("error", .string "bad request")]))
        (.string "hi")).events =
      [.setMessages ⟨.user, .string "hi"⟩, .setLoading true, .axiosPost queryUrl (.string "hi"),
        .setMessages ⟨.bot, .undefined⟩, .speechSpeak .undefined "en" 1,
        .setInput (.string ""), .setLoading false] ∧
    appended (sendMessage AppState.initial (.ok (.object [("error", .string "bad request")]))
        (.string "hi")).events ≠
      [⟨.user, .string "hi"⟩, ⟨.bot, .string "Something went wrong. Please try again."⟩] ∧
    (sendMessage AppState.initial (.ok (.object [("error", .string "bad request")]))
        (.string "hi")).events.countP Event.isSpeak = 1 := by
  have h : (sendMessage AppState.initial (.ok (.object [("error", .string "bad request")]))
        (.string "hi")).events =
      [.setMessages ⟨.user, .string "hi"⟩, .setLoading true, .axiosPost queryUrl (.string "hi"),
        .setMessages ⟨.bot, .undefined⟩, .speechSpeak .undefined "en" 1,
        .setInput (.string ""), .setLoading false] := rfl
  rw [h]
  refine ⟨rfl, ?_, ?_⟩
  · simp [appended]
  · simp [Event.isSpeak]

theorem sendMessage_no_speak_of_string (s : AppState) (backend : Except JSError JSValue)
    (t : String) (hoff : s.voiceEnabled = false) :
    ∀ e ∈ (sendMessage s backend (.string t)).events, e.isSpeak = false := by
  by_cases hb : jsTrim t = ""
  · simp [sendMessage, JSValue.trim, settle, hb, bind, Run.bind, pure, Run.pure]
  · rw [sendMessage_trace s backend t hb]
    cases hr : replyOf backend <;> simp [replyTrace, hr, hoff, Event.isSpeak]

/-- C9: when `voiceEnabled` is false, no effect of `sendMessage` is a call of
`Speech.speak`, whatever the argument, the backend outcome, the reply and the
value of `useGoogleTTS`. -/
theorem sendMessage_voice_off_never_speaks (s : AppState) (backend : Except JSError JSValue)
    (arg : JSValue) (hoff : s.voiceEnabled = false) :
    ∀ e ∈ (sendMessage s backend arg).events, e.isSpeak = false := by
  cases arg with
  | string t => exact sendMessage_no_speak_of_string s backend t hoff
  | undefined =>
    cases hin : s.input with
    | string t =>
      rw [sendMessage_default_argument s backend t hin]
      exact sendMessage_no_speak_of_string s backend t hoff
    | _ => simp [sendMessage, hin, JSValue.trim, settle, bind, Run.bind]
  | _ => simp [sendMessage, JSValue.trim, settle, bind, Run.bind]

theorem sendMessage_voice_off_never_speaks_witness :
    (sendMessage AppState.muted (.ok (.object [("text", .string "Sow in June.")]))
      (.string "When to sow?")).events.countP Event.isSpeak = 0 :=
  List.countP_eq_zero.2 (fun e he => by
    simp [sendMessage_voice_off_never_speaks AppState.muted
      (.ok (.object [("text", .string "Sow in June.")])) (.string "When to sow?") rfl e he])

/-! ## Properties of `transcribeAudio` and `stopRecording` -/

theorem strictEqString_error_not_completed (st : JSValue)
    (h : st.strictEqString "error" = true) : st.strictEqString "completed" = false := by
  cases st <;> simp [JSValue.strictEqString] at h ⊢
  subst h
  decide

theorem pollingLoop_completed (service : AssemblyAI) (transcriptId x : JSValue) :
    ∀ (k n fuel : Nat), k < fuel →
      (∀ i, i < k → ∃ d st, service.polling (n + i) = .ok d ∧ d.getProp "status" = .ok st ∧
        st.strictEqString "completed" = false ∧ st.strictEqString "error" = false) →
      (∃ d st, service.polling (n + k) = .ok d ∧ d.getProp "status" = .ok st ∧
        st.strictEqString "completed" = true ∧ d.getProp "text" = .ok x) →
      pollingLoop service transcriptId fuel n = ⟨pollingTrace transcriptId k, .fulfilled x⟩ := by
  intro k
  induction k with
  | zero =>
    intro n fuel hfuel _ hdone
    obtain ⟨d, st, hd, hst, hc, hx⟩ := hdone
    obtain ⟨fuel, rfl⟩ : ∃ m, fuel = m + 1 := ⟨fuel - 1, by omega⟩
    simp only [Nat.add_zero] at hd
    simp [pollingLoop, pollingTrace, hd, hst, hc, hx, settle, emit, bind, Run.bind]
  | succ k ih =>
    intro n fuel hfuel hwait hdone
    obtain ⟨fuel, rfl⟩ : ∃ m, fuel = m + 1 := ⟨fuel - 1, by omega⟩
    obtain ⟨d, st, hd, hst, hc, he⟩ := hwait 0 (by omega)
    simp only [Nat.add_zero] at hd
    have hrec := ih (n + 1) fuel (by omega)
      (fun i hi => by
        have h := hwait (i + 1) (by omega)
        rwa [show n + (i + 1) = n + 1 + i by omega] at h)
      (by rwa [show n + (k + 1) = n + 1 + k by omega] at hdone)
    simp [pollingLoop, pollingTrace, hd, hst, hc, he, hrec, settle, emit, bind, Run.bind]

theorem countP_isFetchPolling_pollingTrace (transcriptId : JSValue) (k : Nat) :
    (pollingTrace transcriptId k).countP Event.isFetchPolling = k + 1 := by
  induction k with
  | zero => simp [pollingTrace, Event.isFetchPolling]
  | succ k ih => simp [pollingTrace, Event.isFetchPolling, ih]

theorem countP_isDelay_pollingTrace (transcriptId : JSValue) (k : Nat) :
    (pollingTrace transcriptId k).countP Event.isDelay = k := by
  induction k with
  | zero => simp [pollingTrace, Event.isDelay]
  | succ k ih => simp [pollingTrace, Event.isDelay, ih]

/-- C6: when upload and job submission succeed, the first `k` status answers carry a
status that is neither `completed` nor `error`, and answer `k` carries `completed`
and the text `x`, then `transcribeAudio` (given at least `k + 1` loop iterations)
returns `x`; its trace is the upload, the submission, and `k + 1` status requests
with one 2000 ms wait after each of the first `k` and none after the last. -/
theorem transcribeAudio_returns_after_polls (service : AssemblyAI) (uri : JSValue)
    (k fuel : Nat) (x : String) (uploadData audioUrl transcriptData transcriptId : JSValue)
    (hupload : service.upload = .ok uploadData)
    (hurl : uploadData.getProp "upload_url" = .ok audioUrl)
    (hjob : service.transcript = .ok transcriptData)
    (hid : transcriptData.getProp "id" = .ok transcriptId)
    (hwait : ∀ i, i < k → ∃ d st, service.polling i = .ok d ∧ d.getProp "status" = .ok st ∧
      st.strictEqString "completed" = false ∧ st.strictEqString "error" = false)
    (hdone : ∃ d st, service.polling k = .ok d ∧ d.getProp "status" = .ok st ∧
      st.strictEqString "completed" = true ∧ d.getProp "text" = .ok (.string x))
    (hfuel : k < fuel) :
    transcribeAudio service fuel uri =
      ⟨.fetchUpload uri :: .fetchTranscript audioUrl :: pollingTrace transcriptId k,
        .fulfilled (.string x)⟩ ∧
    (transcribeAudio service fuel uri).events.countP Event.isFetchPolling = k + 1 ∧
    (transcribeAudio service fuel uri).events.countP Event.isDelay = k := by
  have hloop := pollingLoop_completed service transcriptId (.string x) k 0 fuel hfuel
    (fun i hi => by simpa using hwait i hi) (by simpa using hdone)
  have hrun : transcribeAudio service fuel uri =
      ⟨.fetchUpload uri :: .fetchTranscript audioUrl :: pollingTrace transcriptId k,
        .fulfilled (.string x)⟩ := by
    simp [transcribeAudio, hupload, hurl, hjob, hid, hloop, settle, emit, bind, Run.bind,
      tryCatch]
  rw [hrun]
  refine ⟨rfl, ?_, ?_⟩
  · simp [countP_isFetchPolling_pollingTrace, Event.isFetchPolling]
  · simp [countP_isDelay_pollingTrace, Event.isDelay]

theorem transcribeAudio_returns_after_polls_witness :
    transcribeAudio helloService 3 (.string "file:///rec.m4a") =
      ⟨[.fetchUpload (.string "file:///rec.m4a"),
        .fetchTranscript (.string "https://cdn.example/a.m4a"),
        .fetchPolling (.string "job-1"), .delay 2000,
        .fetchPolling (.string "job-1"), .delay 2000,
        .fetchPolling (.string "job-1")], .fulfilled (.string "hello")⟩ ∧
    (transcribeAudio helloService 3 (.string "file:///rec.m4a")).events.countP
      Event.isFetchPolling = 3 ∧
    (transcribeAudio helloService 3 (.string "file:///rec.m4a")).events.countP
      Event.isDelay = 2 :=
  transcribeAudio_returns_after_polls helloService (.string "file:///rec.m4a") 2 3 "hello"
    (.object [("upload_url", .string "https://cdn.example/a.m4a")])
    (.string "https://cdn.example/a.m4a")
    (.object [("id", .string "job-1")]) (.string "job-1") rfl rfl rfl rfl
    (fun i hi => ⟨.object [("status", .string "processing")], .string "processing",
      by simp [helloService, hi], rfl, by decide, by decide⟩)
    ⟨.object [("status", .string "completed"), ("text", .string "hello")], .string "completed",
      rfl, rfl, by decide, rfl⟩
    (by decide)

theorem transcribeAudio_error_on_first_poll (service : AssemblyAI) (uri : JSValue) (fuel : Nat)
    (uploadData audioUrl transcriptData transcriptId : JSValue)
    (hupload : service.upload = .ok uploadData)
    (hurl : uploadData.getProp "upload_url" = .ok audioUrl)
    (hjob : service.transcript = .ok transcriptData)
    (hid : transcriptData.getProp "id" = .ok transcriptId)
    (hfirst : ∃ d st, service.polling 0 = .ok d ∧ d.getProp "status" = .ok st ∧
      st.strictEqString "error" = true)
    (hfuel : 0 < fuel) :
    transcribeAudio service fuel uri =
      ⟨[.fetchUpload uri, .fetchTranscript audioUrl, .fetchPolling transcriptId,
        .consoleError "AssemblyAI Transcription Error:" (.error "Transcription failed")],
        .rejected (.error "Transcription failed")⟩ := by
  obtain ⟨d, st, hd, hst, he⟩ := hfirst
  obtain ⟨fuel, rfl⟩ : ∃ m, fuel = m + 1 := ⟨fuel - 1, by omega⟩
  have hc := strictEqString_error_not_completed st he
  simp [transcribeAudio, pollingLoop, hupload, hurl, hjob, hid, hd, hst, he, hc, settle, emit,
    raise, bind, Run.bind, tryCatch]

/-- C7: when upload and job submission succeed and the first status answer carries
the status `error`, `transcribeAudio` is rejected with the error "Transcription
failed" after one status request, and `stopRecording` never calls `sendMessage`:
none of its effects is that call or a backend request, it appends nothing to the
log, the log is unchanged, and the input buffer becomes
"Could not transcribe the audio.". -/
theorem stopRecording_transcription_error (s : AppState) (device : AudioDevice)
    (service : AssemblyAI) (backend : Except JSError JSValue) (fuel : Nat)
    (uploadData audioUrl transcriptData transcriptId : JSValue)
    (hupload : service.upload = .ok uploadData)
    (hurl : uploadData.getProp "upload_url" = .ok audioUrl)
    (hjob : service.transcript = .ok transcriptData)
    (hid : transcriptData.getProp "id" = .ok transcriptId)
    (hfirst : ∃ d st, service.polling 0 = .ok d ∧ d.getProp "status" = .ok st ∧
      st.strictEqString "error" = true)
    (hfuel : 0 < fuel) :
    transcribeAudio service fuel device.uri =
      ⟨[.fetchUpload device.uri, .fetchTranscript audioUrl, .fetchPolling transcriptId,
        .consoleError "AssemblyAI Transcription Error:" (.error "Transcription failed")],
        .rejected (.error "Transcription failed")⟩ ∧
    (∀ e ∈ (stopRecording s device service backend fuel).events,
      e.isCallSendMessage = false ∧ e.isAxiosPost = false) ∧
    appended (stopRecording s device service backend fuel).events = [] ∧
    (s.applyAll (stopRecording s device service backend fuel).events).messages = s.messages ∧
    (s.applyAll (stopRecording s device service backend fuel).events).input =
      .string "Could not transcribe the audio." := by
  have ht := transcribeAudio_error_on_first_poll service device.uri fuel uploadData audioUrl
    transcriptData transcriptId hupload hurl hjob hid hfirst hfuel
  refine ⟨ht, ?_⟩
  rw [messages_applyAll]
  cases hr : s.recording with
  | none =>
    simp [stopRecording, hr, settle, emit, bind, Run.bind, tryCatch, appended,
      Event.isCallSendMessage, Event.isAxiosPost, AppState.applyAll, AppState.apply]
  | some r =>
    cases hs : device.stopAndUnload with
    | error e =>
      simp [stopRecording, hr, hs, settle, emit, bind, Run.bind, tryCatch, appended,
        Event.isCallSendMessage, Event.isAxiosPost, AppState.applyAll, AppState.apply]
    | ok u =>
      simp [stopRecording, hr, hs, ht, settle, emit, bind, Run.bind, tryCatch, appended,
        Event.isCallSendMessage, Event.isAxiosPost, AppState.applyAll, AppState.apply]

theorem stopRecording_transcription_error_witness :
    (stopRecording AppState.recordingNow workingDevice failingService
      (.ok (.object [("text", .string "reply")])) 1).events =
      [.setRecording none, .stopAndUnload ⟨0⟩,
        .consoleLog "Recorded file available at:" [.string "file:///rec.m4a"],
        .fetchUpload (.string "file:///rec.m4a"),
        .fetchTranscript (.string "https://cdn.example/a.m4a"),
        .fetchPolling (.string "job-1"),
        .consoleError "AssemblyAI Transcription Error:" (.error "Transcription failed"),
        .consoleError "Transcription error:" (.error "Transcription failed"),
        .setInput (.string "Could not transcribe the audio.")] ∧
    appended (stopRecording AppState.recordingNow workingDevice
      failingService (.ok (.object [("text", .string "reply")])) 1).events = [] :=
  ⟨rfl,
   (stopRecording_transcription_error AppState.recordingNow
      workingDevice failingService (.ok (.object [("text", .string "reply")])) 1
      (.object [("upload_url", .string "https://cdn.example/a.m4a")])
      (.string "https://cdn.example/a.m4a")
      (.object [("id", .string "job-1")]) (.string "job-1") rfl rfl rfl rfl
      ⟨.object [("status", .string "error"), ("error", .string "no speech")], .string "error",
        rfl, rfl, by decide⟩
      (by decide)).2.2.1⟩

theorem transcribeAudio_submits_without_url (service : AssemblyAI) (fuel : Nat)
    (uri uploadData : JSValue) (h : service.upload = .ok uploadData)
    (hurl : uploadData.getProp "upload_url" = .ok .undefined) :
    (transcribeAudio service fuel uri).events.take 2 =
      [.fetchUpload uri, .fetchTranscript .undefined] := by
  cases hj : service.transcript with
  | error e =>
    simp [transcribeAudio, h, hurl, hj, settle, emit, raise, bind, Run.bind, tryCatch]
  | ok transcriptData =>
    cases hid : transcriptData.getProp "id" with
    | error e =>
      simp [transcribeAudio, h, hurl, hj, hid, settle, emit, raise, bind, Run.bind, tryCatch]
    | ok transcriptId =>
      rcases hp : pollingLoop service transcriptId fuel 0 with ⟨evs, out⟩
      cases out <;>
        simp [transcribeAudio, h, hurl, hj, hid, hp, settle, emit, raise, bind, Run.bind,
          tryCatch]

/-- C8, as the code behaves: when the upload request is rejected (the `fetch` or
the read of its body fails), or its body is `null` or `undefined`, `transcribeAudio`
logs and rethrows the error after the upload request alone: no job is submitted
and no status is requested. An upload body on which the read of `upload_url` gives
`undefined` is not treated as a failure: the job is submitted with an `undefined`
audio url. -/
theorem transcribeAudio_upload_failure (service : AssemblyAI) (fuel : Nat) (uri : JSValue) :
    (∀ err, service.upload = .error err →
      transcribeAudio service fuel uri =
        ⟨[.fetchUpload uri, .consoleError "AssemblyAI Transcription Error:" err],
          .rejected err⟩) ∧
    ((service.upload = .ok .null ∨ service.upload = .ok .undefined) →
      transcribeAudio service fuel uri =
        ⟨[.fetchUpload uri, .consoleError "AssemblyAI Transcription Error:" .typeError],
          .rejected .typeError⟩) ∧
    (∀ uploadData, service.upload = .ok uploadData →
      uploadData.getProp "upload_url" = .ok .undefined →
      ∃ rest, (transcribeAudio service fuel uri).events =
        .fetchUpload uri :: .fetchTranscript .undefined :: rest) := by
  refine ⟨?_, ?_, ?_⟩
  · intro err h
    simp [transcribeAudio, h, settle, emit, raise, bind, Run.bind, tryCatch]
  · rintro (h | h) <;>
      simp [transcribeAudio, h, JSValue.getProp, settle, emit, raise, bind, Run.bind, tryCatch]
  · intro uploadData h hurl
    have htake := transcribeAudio_submits_without_url service fuel uri uploadData h hurl
    refine ⟨(transcribeAudio service fuel uri).events.drop 2, ?_⟩
    conv_lhs => rw [← List.take_append_drop 2 (transcribeAudio service fuel uri).events, htake]
    rfl

theorem transcribeAudio_upload_failure_witness :
    transcribeAudio ⟨.error (.failure "Network request failed"), .ok .null, fun _ => .ok .null⟩ 5
        (.string "file:///rec.m4a") =
      ⟨[.fetchUpload (.string "file:///rec.m4a"),
        .consoleError "AssemblyAI Transcription Error:" (.failure "Network request failed")],
        .rejected (.failure "Network request failed")⟩ ∧
    transcribeAudio ⟨.ok .null, .ok .null, fun _ => .ok .null⟩ 5 (.string "file:///rec.m4a") =
      ⟨[.fetchUpload (.string "file:///rec.m4a"),
        .consoleError "AssemblyAI Transcription Error:" .typeError], .rejected .typeError⟩ ∧
    ∃ rest, (transcribeAudio ⟨.ok (.object []), .ok .null, fun _ => .ok .null⟩ 5
        (.string "file:///rec.m4a")).events =
      .fetchUpload (.string "file:///rec.m4a") :: .fetchTranscript .undefined :: rest :=
  ⟨(transcribeAudio_upload_failure ⟨.error (.failure "Network request failed"), .ok .null,
      fun _ => .ok .null⟩ 5 (.string "file:///rec.m4a")).1 _ rfl,
   (transcribeAudio_upload_failure ⟨.ok .null, .ok .null, fun _ => .ok .null⟩ 5
      (.string "file:///rec.m4a")).2.1 (Or.inl rfl),
   (transcribeAudio_upload_failure ⟨.ok (.object []), .ok .null, fun _ => .ok .null⟩ 5
      (.string "file:///rec.m4a")).2.2 _ rfl rfl⟩

/-- C8 fails as stated: after an upload answer that carries no `upload_url`,
`transcribeAudio` raises nothing; it submits a job with an `undefined` audio url
and goes on to request the status, again and again when the status is missing too,
and returns a text when the service reports one. -/
theorem transcribeAudio_upload_failure_counterexample :
    transcribeAudio refusingService 3 (.string "file:///rec.m4a") =
      ⟨[.fetchUpload (.string "file:///rec.m4a"), .fetchTranscript .undefined,
        .fetchPolling .undefined, .delay 2000, .fetchPolling .undefined, .delay 2000,
        .fetchPolling .undefined, .delay 2000], .pending⟩ ∧
    transcribeAudio lenientService 1 (.string "file:///rec.m4a") =
      ⟨[.fetchUpload (.string "file:///rec.m4a"), .fetchTranscript .undefined,
        .fetchPolling (.string "job-1")], .fulfilled (.string "hi")⟩ :=
  ⟨rfl, rfl⟩

/-! ## The single-session invariant -/

/-- C10 fails on the code: two presses of the microphone button before the first
`createAsync` has resolved start `startRecording` twice (the cell `recording` is
still empty at the second press); when both resolve, two sessions have been created
and none stopped, and the cell holds only the second. -/
theorem toggleRecording_double_press_two_sessions :
    (Controller.initial.run
      [.toggleRecording, .toggleRecording, .createResolved, .createResolved]).sessions =
      [⟨1⟩, ⟨0⟩] ∧
    (Controller.initial.run
      [.toggleRecording, .toggleRecording, .createResolved, .createResolved]).sessions.length
      = 2 ∧
    (Controller.initial.run
      [.toggleRecording, .toggleRecording, .createResolved, .createResolved]).recording =
      some ⟨1⟩ := by
  decide

end KrishiApp
